import Mathlib

/-!
Verification of the client-side UI behaviors of the htmxsample repository:
the hyperscript actions (swapVisibility, showBooks, hideBooks, countRows)
and the dialog wiring in site.js (handleAuthorDialog).

The document is modelled shallowly: the checkbox group named id is a list
of checked flags, the two counter spans are text fields, and the rest of
the document is an opaque association list.  Hyperscript bodies are lists
of commands executed strictly in order; the transition command is
asynchronous and the runtime waits for it to complete before running the
next command, so command issue times are computed by adding each
transition's duration (explicit, or the runtime default) to the clock.
-/

namespace Htmx

/-- The part of the live document that countRows touches: the checked
states of the checkboxes named id, the masterCheck checkbox, the text of
the selectedCount and totalRecords spans, and the rest of the document. -/
structure Doc where
  idBoxes : List Bool
  masterCheck : Bool
  selectedCountText : String
  totalRecordsText : String
  rest : List (String × String)
deriving DecidableEq, Repr

/-- The value of the local selectedCount in countRows:
the length of the query result input[name=id]:checked. -/
def selectedCount (d : Doc) : Nat :=
  (d.idBoxes.filter (fun b => b)).length

/-- The value of the local totalCount in countRows:
the length of the query result input[name=id]. -/
def totalCount (d : Doc) : Nat :=
  d.idBoxes.length

/-- The settle delay at the head of countRows: wait 1.1s. -/
def countRowsWaitMs : Nat := 1100

/-- The body of countRows after the wait: put the checked count into the
selectedCount span, the total count into the totalRecords span, and if the
two are equal set masterCheck.checked to true. -/
def countRows (d : Doc) : Doc :=
  let sel := selectedCount d
  let tot := totalCount d
  let d1 := { d with selectedCountText := toString sel,
                     totalRecordsText := toString tot }
  if tot = sel then { d1 with masterCheck := true } else d1

/-- C1: countRows waits 1.1 s, then writes the checked count K into
selectedCount and the total N into totalRecords; when K = N it sets
masterCheck, and when K differs from N it leaves masterCheck unchanged. -/
theorem countRows_counts_and_master (d : Doc) :
    countRowsWaitMs = 1100 ∧
    (countRows d).selectedCountText = toString (selectedCount d) ∧
    (countRows d).totalRecordsText = toString (totalCount d) ∧
    (selectedCount d = totalCount d → (countRows d).masterCheck = true) ∧
    (selectedCount d ≠ totalCount d →
      (countRows d).masterCheck = d.masterCheck) := by
  refine ⟨rfl, ?_, ?_, ?_, ?_⟩ <;> simp only [countRows] <;> split <;>
    simp_all <;> intro h <;> simp_all [Eq.comm]

/-- Witness for C1 at the spec's concrete scenario: five checkboxes named
id, three checked, masterCheck initially unchecked. -/
def doc53 : Doc :=
  { idBoxes := [true, true, true, false, false]
    masterCheck := false
    selectedCountText := ""
    totalRecordsText := ""
    rest := [] }

theorem countRows_counts_and_master_witness :
    (countRows doc53).selectedCountText = toString (selectedCount doc53) ∧
    (countRows doc53).masterCheck = doc53.masterCheck :=
  ⟨(countRows_counts_and_master doc53).2.1,
   (countRows_counts_and_master doc53).2.2.2.2 (by decide)⟩

example : (countRows doc53).selectedCountText = "3" := by decide

example : (countRows doc53).totalRecordsText = "5" := by decide

/-- C6: with zero checkboxes named id, countRows writes "0" into both
counter spans and sets masterCheck.checked to true, because the equality
check between the two counts is satisfied at zero. -/
theorem countRows_empty (d : Doc) (h : d.idBoxes = []) :
    (countRows d).selectedCountText = "0" ∧
    (countRows d).totalRecordsText = "0" ∧
    (countRows d).masterCheck = true := by
  obtain ⟨boxes, m, s, t, r⟩ := d
  simp only at h
  subst h
  refine ⟨?_, ?_, rfl⟩ <;> show toString (0:Nat) = "0" <;> decide

/-- Witness document for the empty checkbox group: no checkboxes named id,
masterCheck initially unchecked. -/
def doc0 : Doc :=
  { idBoxes := []
    masterCheck := false
    selectedCountText := ""
    totalRecordsText := ""
    rest := [] }

theorem countRows_empty_witness :
    (countRows doc0).selectedCountText = "0" ∧
    (countRows doc0).totalRecordsText = "0" ∧
    (countRows doc0).masterCheck = true :=
  countRows_empty doc0 (by decide)

/-- C7: countRows never clears masterCheck: the resulting checked state is
either the initial one or true, and in particular a set masterCheck stays
set whatever the counts are. -/
theorem countRows_never_clears_master (d : Doc) :
    ((countRows d).masterCheck = d.masterCheck ∨
      (countRows d).masterCheck = true) ∧
    (d.masterCheck = true → (countRows d).masterCheck = true) := by
  constructor
  · simp only [countRows]
    split <;> simp
  · intro h
    simp only [countRows]
    split <;> simp [h]

theorem countRows_never_clears_master_witness :
    (countRows doc53).masterCheck = doc53.masterCheck ∨
    (countRows doc53).masterCheck = true :=
  (countRows_never_clears_master doc53).1

/-- C9: the checked count countRows writes into selectedCount never
exceeds the total it writes into totalRecords, since both are read in the
same execution turn and the checked boxes form a subset of all boxes. -/
theorem countRows_selected_le_total (d : Doc) :
    selectedCount d ≤ totalCount d ∧
    (countRows d).selectedCountText = toString (selectedCount d) ∧
    (countRows d).totalRecordsText = toString (totalCount d) := by
  refine ⟨List.length_filter_le _ _, ?_, ?_⟩ <;>
    simp only [countRows] <;> split <;> simp

/-- C10: countRows mutates only the two counter texts and, when the
counts agree, masterCheck; the checkbox group named id and every other
element of the document are left unchanged, and masterCheck is untouched
when the counts differ. -/
theorem countRows_frame (d : Doc) :
    (countRows d).idBoxes = d.idBoxes ∧
    (countRows d).rest = d.rest ∧
    (selectedCount d ≠ totalCount d →
      (countRows d).masterCheck = d.masterCheck) := by
  refine ⟨?_, ?_, ?_⟩ <;> simp only [countRows] <;> split <;>
    simp_all <;> intro h <;> simp_all [Eq.comm]

theorem countRows_frame_witness :
    (countRows doc53).idBoxes = doc53.idBoxes ∧
    (countRows doc53).masterCheck = doc53.masterCheck :=
  ⟨(countRows_frame doc53).1, (countRows_frame doc53).2.2 (by decide)⟩

/-- The primitive hyperscript commands used by swapVisibility, showBooks
and hideBooks; each names its target element by its id string. -/
inductive Cmd where
  | addDisabled (target : String)
  | removeDisabled (target : String)
  | transitionOpacity (target : String) (toPct : Nat) (overMs : Option Nat)
  | showElem (target : String)
  | hideElem (target : String)
deriving DecidableEq, Repr

/-- The element id a command acts on. -/
def Cmd.target : Cmd → String
  | .addDisabled t => t
  | .removeDisabled t => t
  | .transitionOpacity t _ _ => t
  | .showElem t => t
  | .hideElem t => t

def Cmd.isRemoveDisabled : Cmd → Bool
  | .removeDisabled _ => true
  | _ => false

def Cmd.isHideElem : Cmd → Bool
  | .hideElem _ => true
  | _ => false

/-- Body of swapVisibility(authorId): disable the view toggle, run a
3-second opacity transition on it to 100%, then show it, then hide the
swapBooks control. -/
def swapVisibility (authorId : String) : List Cmd :=
  [Cmd.addDisabled ("viewBooks-" ++ authorId),
   Cmd.transitionOpacity ("viewBooks-" ++ authorId) 100 (some 3000),
   Cmd.showElem ("viewBooks-" ++ authorId),
   Cmd.hideElem ("swapBooks-" ++ authorId)]

/-- Body of showBooks(authorId): disable the view toggle, transition the
book listing opacity to 100% (no explicit duration), then show it. -/
def showBooks (authorId : String) : List Cmd :=
  [Cmd.addDisabled ("viewBooks-" ++ authorId),
   Cmd.transitionOpacity ("bookListing-" ++ authorId) 100 none,
   Cmd.showElem ("bookListing-" ++ authorId)]

/-- Body of hideBooks(author_id): transition the book listing opacity to
0 (no explicit duration), then hide it, then clear disabled on the view
toggle. -/
def hideBooks (author_id : String) : List Cmd :=
  [Cmd.transitionOpacity ("bookListing-" ++ author_id) 0 none,
   Cmd.hideElem ("bookListing-" ++ author_id),
   Cmd.removeDisabled ("viewBooks-" ++ author_id)]

/-- Issue times of a command list under the hyperscript runtime, where a
transition command is asynchronous and the command after it does not run
until the transition completes.  Every command is paired with the clock
value at which it is issued; a transition with no explicit duration uses
the runtime default duration. -/
def issueTimes (defaultMs : Nat) : Nat → List Cmd → List (Nat × Cmd)
  | _, [] => []
  | t, Cmd.transitionOpacity tg p overMs :: cs =>
      (t, Cmd.transitionOpacity tg p overMs) ::
        issueTimes defaultMs (t + overMs.getD defaultMs) cs
  | t, c :: cs => (t, c) :: issueTimes defaultMs t cs

/-- The issue time of the first command matching a predicate. -/
def issueTimeOf (p : Cmd → Bool) (evs : List (Nat × Cmd)) : Option Nat :=
  (evs.find? (fun tc => p tc.2)).map (fun tc => tc.1)

/-- Visible state of one element: its disabled attribute, whether it is
shown, and its opacity percentage. -/
structure ElemState where
  disabled : Bool
  visible : Bool
  opacity : Nat
deriving DecidableEq, Repr

/-- Effect of one command on the element with id eid (commands aimed at
other elements leave it alone). -/
def applyTo (eid : String) (s : ElemState) (c : Cmd) : ElemState :=
  if c.target = eid then
    match c with
    | Cmd.addDisabled _ => { s with disabled := true }
    | Cmd.removeDisabled _ => { s with disabled := false }
    | Cmd.transitionOpacity _ p _ => { s with opacity := p }
    | Cmd.showElem _ => { s with visible := true }
    | Cmd.hideElem _ => { s with visible := false }
  else s

/-- State of the element with id eid after a command list has run. -/
def elemStateAfter (cmds : List Cmd) (eid : String) (s : ElemState) :
    ElemState :=
  cmds.foldl (applyTo eid) s

theorem bookListing_ne_viewBooks (a b : String) :
    ("bookListing-" ++ a) ≠ ("viewBooks-" ++ b) := by
  simp [String.ext_iff, String.data_append]

theorem viewBooks_ne_swapBooks (a b : String) :
    ("viewBooks-" ++ a) ≠ ("swapBooks-" ++ b) := by
  simp [String.ext_iff, String.data_append]

/-- C2 counterexample: with the runtime default transition duration of
500 ms, hideBooks("a") issues the removal of the disabled attribute at
clock 500, when the fade-out completes, not at clock 0 when hideBooks is
invoked: the hyperscript transition command waits for completion before
the next command runs. -/
theorem hideBooks_reenable_not_immediate :
    issueTimeOf Cmd.isRemoveDisabled (issueTimes 500 0 (hideBooks "a")) =
      some 500 ∧
    ¬ issueTimeOf Cmd.isRemoveDisabled (issueTimes 500 0 (hideBooks "a")) =
      some 0 := by
  decide

/-- C2 amended: in hideBooks(authorId), re-enabling the view toggle is
sequenced after the fade-out transition completes (it is issued at the
transition's duration, whatever the runtime default is), not immediately
at invocation; the listing panel ends hidden and the toggle ends
enabled. -/
theorem hideBooks_order (defaultMs : Nat) (a : String) (s sv : ElemState) :
    issueTimes defaultMs 0 (hideBooks a) =
      [(0, Cmd.transitionOpacity ("bookListing-" ++ a) 0 none),
       (defaultMs, Cmd.hideElem ("bookListing-" ++ a)),
       (defaultMs, Cmd.removeDisabled ("viewBooks-" ++ a))] ∧
    (elemStateAfter (hideBooks a) ("bookListing-" ++ a) s).visible = false ∧
    (elemStateAfter (hideBooks a) ("viewBooks-" ++ a) sv).disabled = false := by
  refine ⟨?_, ?_, ?_⟩
  · simp [issueTimes, hideBooks]
  · simp [elemStateAfter, applyTo, hideBooks, Cmd.target,
      (bookListing_ne_viewBooks a a).symm]
  · simp [elemStateAfter, applyTo, hideBooks, Cmd.target,
      bookListing_ne_viewBooks a a]

/-- C3 counterexample: with the runtime default transition duration of
500 ms, swapVisibility("a") issues the hiding of the swapBooks control at
clock 3000, when the 3-second transition on the view toggle completes,
not at clock 0 when swapVisibility is invoked. -/
theorem swapBooks_hide_not_immediate :
    issueTimeOf Cmd.isHideElem (issueTimes 500 0 (swapVisibility "a")) =
      some 3000 ∧
    ¬ issueTimeOf Cmd.isHideElem (issueTimes 500 0 (swapVisibility "a")) =
      some 0 := by
  decide

/-- C3 amended: in swapVisibility(authorId), the swapBooks control is
hidden when the 3-second opacity transition on the view toggle completes
(issued at clock 3000), not immediately at invocation; the view toggle is
disabled at invocation and, when its transition completes, shown at full
opacity. -/
theorem swapVisibility_order (defaultMs : Nat) (a : String)
    (sv ss : ElemState) :
    issueTimes defaultMs 0 (swapVisibility a) =
      [(0, Cmd.addDisabled ("viewBooks-" ++ a)),
       (0, Cmd.transitionOpacity ("viewBooks-" ++ a) 100 (some 3000)),
       (3000, Cmd.showElem ("viewBooks-" ++ a)),
       (3000, Cmd.hideElem ("swapBooks-" ++ a))] ∧
    (elemStateAfter (swapVisibility a) ("viewBooks-" ++ a) sv).disabled =
      true ∧
    (elemStateAfter (swapVisibility a) ("viewBooks-" ++ a) sv).visible =
      true ∧
    (elemStateAfter (swapVisibility a) ("viewBooks-" ++ a) sv).opacity =
      100 ∧
    (elemStateAfter (swapVisibility a) ("swapBooks-" ++ a) ss).visible =
      false := by
  refine ⟨?_, ?_, ?_, ?_, ?_⟩
  · simp [issueTimes, swapVisibility]
  all_goals
    simp [elemStateAfter, applyTo, swapVisibility, Cmd.target,
      viewBooks_ne_swapBooks a a, (viewBooks_ne_swapBooks a a).symm]

/-- C8: showBooks(authorId) first disables the view toggle (issued at
invocation), then starts an opacity transition on the book listing to
100% with no explicit duration (so the runtime default is used), and
shows the listing when that transition completes; the toggle ends
disabled and the listing ends shown at full opacity. -/
theorem showBooks_order (defaultMs : Nat) (a : String) (sb sv : ElemState) :
    issueTimes defaultMs 0 (showBooks a) =
      [(0, Cmd.addDisabled ("viewBooks-" ++ a)),
       (0, Cmd.transitionOpacity ("bookListing-" ++ a) 100 none),
       (defaultMs, Cmd.showElem ("bookListing-" ++ a))] ∧
    (elemStateAfter (showBooks a) ("viewBooks-" ++ a) sv).disabled = true ∧
    (elemStateAfter (showBooks a) ("bookListing-" ++ a) sb).opacity = 100 ∧
    (elemStateAfter (showBooks a) ("bookListing-" ++ a) sb).visible =
      true := by
  refine ⟨?_, ?_, ?_, ?_⟩
  · simp [issueTimes, showBooks]
  all_goals
    simp [elemStateAfter, applyTo, showBooks, Cmd.target,
      bookListing_ne_viewBooks a a, (bookListing_ne_viewBooks a a).symm]

/-- The ids of the elements present in the rendered page, for the dialog
wiring in site.js. -/
structure PageElems where
  present : List String
deriving DecidableEq, Repr

/-- document.getElementById: some reference when an element with that id
exists, none (null) otherwise. -/
def getElementById (p : PageElems) (eid : String) : Option String :=
  if p.present.contains eid then some eid else none

/-- A listener attached by handleAuthorDialog; each captures the
dialogElem reference (possibly null) resolved at binding time. -/
inductive Listener where
  | onShow (dialogElem : Option String)
  | onClose (dialogElem : Option String)
deriving DecidableEq, Repr

/-- Result of running handleAuthorDialog(id): the listeners attached (as
target element paired with handler) in attachment order, and whether the
call aborted with an uncaught lookup error. -/
structure BindResult where
  listeners : List (String × Listener)
  errored : Bool
deriving DecidableEq, Repr

/-- handleAuthorDialog(id): resolve dialog+id, show+id and close+id, then
attach a click listener to the show button and one to the close button.
A null lookup throws only when a method is called on it, so the call
aborts at showBtn.addEventListener when the show button is missing (with
nothing attached), and at closeBtn.addEventListener when the close button
is missing (with the show listener already attached); a missing dialog
element does not abort the binding at all. -/
def handleAuthorDialog (p : PageElems) (id : String) : BindResult :=
  let dialogElem := getElementById p ("dialog" ++ id)
  let showBtn := getElementById p ("show" ++ id)
  let closeBtn := getElementById p ("close" ++ id)
  match showBtn with
  | none => { listeners := [], errored := true }
  | some sb =>
    match closeBtn with
    | none => { listeners := [(sb, Listener.onShow dialogElem)],
                errored := true }
    | some cb =>
      { listeners := [(sb, Listener.onShow dialogElem),
                      (cb, Listener.onClose dialogElem)],
        errored := false }

/-- Firing a listener on a click: given the dialog's current open state,
return the new open state and whether the event's default action was
prevented, or none when the captured dialogElem is null and the call
aborts.  The show listener calls dialogElem.showModal(); the close
listener calls dialogElem.close() and then event.preventDefault(). -/
def fireListener (l : Listener) (dialogOpen : Bool) :
    Option (Bool × Bool) :=
  match l with
  | Listener.onShow none => none
  | Listener.onShow (some _) => some (true, false)
  | Listener.onClose none => none
  | Listener.onClose (some _) => some (false, true)

/-- C4: when dialog+id, show+id and close+id all exist, the binding
attaches the show and close listeners without error; activating the show
trigger makes the dialog's open state true, and subsequently activating
the close trigger makes it false and prevents the event's default action
(so no navigation or URL change happens). -/
theorem handleAuthorDialog_show_close (p : PageElems) (id : String)
    (hd : p.present.contains ("dialog" ++ id) = true)
    (hs : p.present.contains ("show" ++ id) = true)
    (hc : p.present.contains ("close" ++ id) = true) :
    (handleAuthorDialog p id).errored = false ∧
    (handleAuthorDialog p id).listeners =
      [("show" ++ id, Listener.onShow (some ("dialog" ++ id))),
       ("close" ++ id, Listener.onClose (some ("dialog" ++ id)))] ∧
    fireListener (Listener.onShow (some ("dialog" ++ id))) false =
      some (true, false) ∧
    fireListener (Listener.onClose (some ("dialog" ++ id))) true =
      some (false, true) := by
  have hd2 : ("dialog" ++ id) ∈ p.present := by simpa using hd
  have hs2 : ("show" ++ id) ∈ p.present := by simpa using hs
  have hc2 : ("close" ++ id) ∈ p.present := by simpa using hc
  simp [handleAuthorDialog, getElementById, hd2, hs2, hc2, fireListener]

/-- Page with the full dialog1/show1/close1 triple present. -/
def pFull : PageElems := { present := ["dialog1", "show1", "close1"] }

theorem handleAuthorDialog_show_close_witness :
    (handleAuthorDialog pFull "1").errored = false ∧
    (handleAuthorDialog pFull "1").listeners =
      [("show1", Listener.onShow (some "dialog1")),
       ("close1", Listener.onClose (some "dialog1"))] ∧
    fireListener (Listener.onShow (some "dialog1")) false =
      some (true, false) ∧
    fireListener (Listener.onClose (some "dialog1")) true =
      some (false, true) :=
  handleAuthorDialog_show_close pFull "1" (by decide) (by decide) (by decide)

/-- Page where dialog1 is missing but show1 and close1 exist. -/
def pNoDialog : PageElems := { present := ["show1", "close1"] }

/-- C5 counterexample: with dialog1 absent but show1 and close1 present,
handleAuthorDialog("1") does not fail during the binding step at all: the
null dialog lookup only aborts later, when a listener fires. -/
theorem handleAuthorDialog_missing_dialog_no_error :
    getElementById pNoDialog "dialog1" = none ∧
    ¬ (handleAuthorDialog pNoDialog "1").errored = true := by
  decide

/-- C5 amended: the binding call signals a lookup error during the
binding step itself exactly when the show or close button is missing;
when only the dialog element is missing, binding completes without error
and every listener it attaches signals a lookup error when activated
instead (so none of them works). -/
theorem handleAuthorDialog_missing (p : PageElems) (id : String) :
    ((handleAuthorDialog p id).errored = true ↔
      (getElementById p ("show" ++ id) = none ∨
       getElementById p ("close" ++ id) = none)) ∧
    (getElementById p ("dialog" ++ id) = none →
      ∀ tl ∈ (handleAuthorDialog p id).listeners,
        ∀ b, fireListener tl.2 b = none) := by
  constructor
  · simp only [handleAuthorDialog]
    cases hs : getElementById p ("show" ++ id) <;>
      cases hc : getElementById p ("close" ++ id) <;> simp
  · intro hd tl htl b
    simp only [handleAuthorDialog, hd] at htl
    cases hs : getElementById p ("show" ++ id) <;>
      cases hc : getElementById p ("close" ++ id) <;>
      simp [hs, hc] at htl <;>
      first
      | (subst htl; rfl)
      | (rcases htl with h1 | h1 <;> subst h1 <;> rfl)

theorem handleAuthorDialog_missing_witness :
    fireListener (Listener.onShow none) true = none :=
  (handleAuthorDialog_missing pNoDialog "1").2 (by decide)
    ("show1", Listener.onShow none) (by decide) true

end Htmx
